import Mathlib

set_option maxRecDepth 4000

/-!
Shallow embedding of the Wyrmline terminal UI (`src/ConsoleUI.cpp`) and
verification of its specification.

The embedding follows `ConsoleUI.cpp` line by line:
* `addOutputMsgList`  — `ConsoleUI::addOutputMessage` (buffer-level effect);
* `visibleSlice`      — the slice computed by `ConsoleUI::drawOutputWindow`;
* `setupWindows`      — `ConsoleUI::setupWindows`, with `newwin` modelled by an
  allocation oracle `AllocFn`;
* `handleResize`      — `ConsoleUI::handleResize`;
* `processCommand`    — `ConsoleUI::processCommand`;
* `handleInput`       — `ConsoleUI::handleInput`, one keyboard event per call;
* `scrollBack` / `scrollForward` — the `KEY_PPAGE` / `KEY_NPAGE` computations
  with the step size (the window height at the call sites) made a parameter.

State that the claims never mention (colors, boxes, titles, the physical paint
calls, the mutex, sleeping) is not represented; it does not feed back into the
modelled state.  The `msgLog` field is ghost instrumentation: it records every
message ever passed to `addOutputMessage`, in order, and is written by no other
operation, so ordering claims about appends can be stated even when a later
`clear` removes lines from the live buffer.
-/

namespace Wyrmline

/-- A curses window as far as the claims observe it: the geometry passed to
`newwin(h, w, y, x)`. -/
structure Win where
  height : Nat
  width : Nat
  y : Nat
  x : Nat
deriving DecidableEq, Repr

/-- Result of `setupWindows`, i.e. `std::expected<void, ResizeError>`:
`Ready` is the has-value state, `TooSmall` is `ResizeError::TERMINAL_TOO_SMALL`. -/
inductive LayoutStatus where
  | Ready
  | TooSmall
deriving DecidableEq, Repr

/-- Allocation oracle standing for `newwin(h, w, y, x)`: `true` means the
allocation succeeds (non-null window), `false` means it fails (null). -/
def AllocFn : Type := Nat → Nat → Nat → Nat → Bool

/-- `const int m_minHeight = 10;` -/
def minHeight : Nat := 10

/-- `const int m_minWidth = 40;` -/
def minWidth : Nat := 40

/-- `const size_t MAX_BUFFER_SIZE = 1000;` in `addOutputMessage`. -/
def MAX_BUFFER_SIZE : Nat := 1000

/-- The mutable state of a `ConsoleUI` instance (the fields of the class that
the modelled operations read or write).  `msgLog` is ghost state (see module
docstring). -/
structure ConsoleUI where
  termHeight : Nat
  termWidth : Nat
  outputHeight : Nat
  inputHeight : Nat
  outputBorderWin : Option Win
  outputWin : Option Win
  inputBorderWin : Option Win
  inputWin : Option Win
  outputBuffer : List String
  scrollOffset : Int
  inputBuffer : String
  cursorPos : Nat
  commandHistory : List String
  historyIndex : Int
  isRunning : Bool
  resizeStatus : LayoutStatus
  msgLog : List String
deriving DecidableEq, Repr

/-- `ConsoleUI::addOutputMessage`, as an operation on the buffer contents:
push the line, then drop the oldest lines while the size exceeds
`MAX_BUFFER_SIZE`. -/
def addOutputMsgList (buf : List String) (message : String) : List String :=
  let b := buf ++ [message]
  if b.length > MAX_BUFFER_SIZE then b.drop (b.length - MAX_BUFFER_SIZE) else b

/-- `ConsoleUI::addOutputMessage` on the full state (also appends to the ghost
log). -/
def addMsgState (ui : ConsoleUI) (message : String) : ConsoleUI :=
  { ui with outputBuffer := addOutputMsgList ui.outputBuffer message,
            msgLog := ui.msgLog ++ [message] }

/-- Folding `addOutputMessage` over a whole sequence of appends, starting from
the empty buffer. -/
def appendAll (ms : List String) : List String :=
  ms.foldl addOutputMsgList []

lemma addOutputMsgList_drop (ms : List String) (m : String) :
    addOutputMsgList (ms.drop (ms.length - MAX_BUFFER_SIZE)) m =
      (ms ++ [m]).drop ((ms.length + 1) - MAX_BUFFER_SIZE) := by
  unfold addOutputMsgList
  have hk : ms.length - MAX_BUFFER_SIZE ≤ ms.length := Nat.sub_le _ _
  have hlen : (ms.drop (ms.length - MAX_BUFFER_SIZE)).length =
      ms.length - (ms.length - MAX_BUFFER_SIZE) := List.length_drop _ _
  by_cases hbig : MAX_BUFFER_SIZE ≤ ms.length
  · have h1 : (ms.drop (ms.length - MAX_BUFFER_SIZE) ++ [m]).length =
        MAX_BUFFER_SIZE + 1 := by
      simp [hlen]; omega
    simp only [h1]
    have h2 : MAX_BUFFER_SIZE + 1 > MAX_BUFFER_SIZE := Nat.lt_succ_self _
    rw [if_pos h2]
    have h3 : MAX_BUFFER_SIZE + 1 - MAX_BUFFER_SIZE = 1 := by omega
    rw [h3]
    have h4 : ms.drop (ms.length - MAX_BUFFER_SIZE) ++ [m] =
        (ms ++ [m]).drop (ms.length - MAX_BUFFER_SIZE) := by
      rw [List.drop_append_of_le_length hk]
    rw [h4, List.drop_drop]
    have h5 : ms.length - MAX_BUFFER_SIZE + 1 = ms.length + 1 - MAX_BUFFER_SIZE := by
      omega
    rw [h5]
  · push_neg at hbig
    have hz : ms.length - MAX_BUFFER_SIZE = 0 := by omega
    have h1 : (ms.drop 0 ++ [m]).length = ms.length + 1 := by simp
    rw [hz]
    simp only [List.drop_zero] at h1 ⊢
    have : ¬ (ms ++ [m]).length > MAX_BUFFER_SIZE := by
      simp only [List.length_append, List.length_singleton]; omega
    simp only [List.length_append, List.length_singleton] at this ⊢
    rw [if_neg this]
    have hz2 : ms.length + 1 - MAX_BUFFER_SIZE = 0 := by omega
    rw [hz2, List.drop_zero]

/-- Closed form of the whole-history fold: the buffer is always the last
`MAX_BUFFER_SIZE` appended lines (all of them while there are at most
`MAX_BUFFER_SIZE`). -/
lemma appendAll_eq_drop (ms : List String) :
    appendAll ms = ms.drop (ms.length - MAX_BUFFER_SIZE) := by
  induction ms using List.reverseRecOn with
  | nil => simp [appendAll]
  | append_singleton ms m ih =>
      unfold appendAll at ih ⊢
      rw [List.foldl_append]
      simp only [List.foldl_cons, List.foldl_nil]
      rw [ih, addOutputMsgList_drop]
      simp

/-- First visible buffer index in `ConsoleUI::drawOutputWindow`:
`std::max(0, bufferSize - winHeight - m_scrollOffset)` (`int` arithmetic). -/
def firstLineIdx (bufferSize winHeight : Nat) (scrollOffset : Int) : Nat :=
  (max 0 ((bufferSize : Int) - winHeight - scrollOffset)).toNat

/-- One-past-last visible buffer index in `ConsoleUI::drawOutputWindow`:
`std::max(0, bufferSize - m_scrollOffset)`. -/
def lastLineIdx (bufferSize : Nat) (scrollOffset : Int) : Nat :=
  (max 0 ((bufferSize : Int) - scrollOffset)).toNat

/-- The sequence of buffer lines painted by `ConsoleUI::drawOutputWindow`:
the loop runs `i` from `firstLineIdx` to `lastLineIdx` (exclusive), breaking
once `i - firstLineIdx` reaches the window height, and draws
`m_outputBuffer[i]`. -/
def visibleSlice (buffer : List String) (winHeight : Nat) (scrollOffset : Int) :
    List String :=
  let f := firstLineIdx buffer.length winHeight scrollOffset
  let l := lastLineIdx buffer.length scrollOffset
  ((List.range' f (l - f)).take winHeight).map (fun i => buffer.getD i "")

/-- `ConsoleUI::setupWindows(height, width)`.  Returns the updated state and
the `std::expected` result that the callers store into `m_resizeStatus`.
`newwin` is the oracle `alloc`; a successful call yields a `Win` recording the
geometry passed to `newwin`. -/
def setupWindows (alloc : AllocFn) (ui : ConsoleUI) (h w : Nat) :
    ConsoleUI × LayoutStatus :=
  let ui0 := { ui with termHeight := h, termWidth := w }
  if h < minHeight ∨ w < minWidth then
    ({ ui0 with outputBorderWin := none, outputWin := none,
                inputBorderWin := none, inputWin := none }, .TooSmall)
  else
    let oh := h - ui0.inputHeight
    let ih := ui0.inputHeight
    let ob := if alloc oh w 0 0 then some (Win.mk oh w 0 0) else none
    let ib := if alloc ih w oh 0 then some (Win.mk ih w oh 0) else none
    let ui1 := { ui0 with outputHeight := oh,
                          outputBorderWin := ob, outputWin := none,
                          inputBorderWin := ib, inputWin := none }
    if ob.isNone ∨ ib.isNone then (ui1, .TooSmall)
    else
      let outputInnerH := if oh > 2 then oh - 2 else 0
      let outputInnerW := if w > 2 then w - 2 else 0
      let inputInnerH := if ih > 2 then ih - 2 else 0
      let inputInnerW := if w > 2 then w - 2 else 0
      let ow := if alloc outputInnerH outputInnerW 1 1 then
                  some (Win.mk outputInnerH outputInnerW 1 1) else none
      let iw := if alloc inputInnerH inputInnerW (oh + 1) 1 then
                  some (Win.mk inputInnerH inputInnerW (oh + 1) 1) else none
      let ui2 := { ui1 with outputWin := ow, inputWin := iw }
      if ow.isNone ∨ iw.isNone then (ui2, .TooSmall)
      else (ui2, .Ready)

/-- The message of `ConsoleUI::handleResize` on a TooSmall-to-Ready transition. -/
def resizedNotice : String := "Terminal resized to usable dimensions."

/-- `ConsoleUI::handleResize`, with the terminal size read from `stdscr`
passed in as `h`, `w`. -/
def handleResize (alloc : AllocFn) (h w : Nat) (ui : ConsoleUI) : ConsoleUI :=
  let p := setupWindows alloc ui h w
  let ui1 := { p.1 with resizeStatus := p.2 }
  if ui.resizeStatus = .TooSmall ∧ p.2 = .Ready then
    addMsgState ui1 resizedNotice
  else ui1

/-- The static text of the `help` built-in. -/
def helpMessage : String := "Commands: exit, clear, help. Scroll: PgUp/PgDn"

/-- `std::format("Unknown: \x7b\x7d", command)` with the braces of the format
string filled in (the placeholder is wrapped in single quotes, `\x27`). -/
def unknownMessage (command : String) : String :=
  "Unknown: \x27" ++ command ++ "\x27"

/-- `ConsoleUI::processCommand`. -/
def processCommand (ui : ConsoleUI) (command : String) : ConsoleUI :=
  if command = "exit" then { ui with isRunning := false }
  else if command = "clear" then { ui with outputBuffer := [], scrollOffset := 0 }
  else if command = "help" then addMsgState ui helpMessage
  else addMsgState ui (unknownMessage command)

/-- Observable effects of one `ConsoleUI::processCommand` call.  `delegate`
never occurs in the source (the function body contains no call to any external
command processor); the constructor exists so the spec's claimed delegation
interface can be stated and compared against the code. -/
inductive CmdEffect where
  | stopEffect
  | clearEffect
  | addMessage (s : String)
  | delegate (s : String)
deriving DecidableEq, Repr

/-- The effect trace of `ConsoleUI::processCommand`, read off the same four
branches as `processCommand`. -/
def processCommandEffects (command : String) : List CmdEffect :=
  if command = "exit" then [.stopEffect]
  else if command = "clear" then [.clearEffect]
  else if command = "help" then [.addMessage helpMessage]
  else [.addMessage (unknownMessage command)]

/-- The messages `ConsoleUI::processCommand` passes to `addOutputMessage`. -/
def processCommandMessages (command : String) : List String :=
  if command = "exit" then []
  else if command = "clear" then []
  else if command = "help" then [helpMessage]
  else [unknownMessage command]

/-- `std::string::erase(pos, 1)`: remove the character at index `pos`. -/
def strErase (s : String) (pos : Nat) : String :=
  (s.toList.take pos ++ s.toList.drop (pos + 1)).asString

/-- `std::string::insert(pos, 1, c)`: insert `c` before index `pos`. -/
def strInsert (s : String) (pos : Nat) (c : Char) : String :=
  (s.toList.take pos ++ c :: s.toList.drop pos).asString

/-- The `KEY_PPAGE` branch of `ConsoleUI::handleInput`:
`m_scrollOffset = std::min(std::max(0, bufferSize - winHeight), m_scrollOffset + amount)`,
where at the call site `amount` is the output window height `winHeight`. -/
def scrollBack (bufferSize winHeight : Nat) (scrollOffset : Int) (amount : Nat) :
    Int :=
  min (max 0 ((bufferSize : Int) - winHeight)) (scrollOffset + amount)

/-- The `KEY_NPAGE` branch of `ConsoleUI::handleInput`:
`m_scrollOffset -= amount; if (m_scrollOffset < 0) m_scrollOffset = 0;`,
where at the call site `amount` is the output window height. -/
def scrollForward (scrollOffset : Int) (amount : Nat) : Int :=
  let s := scrollOffset - amount
  if s < 0 then 0 else s

/-- The keyboard events distinguished by the `switch` in
`ConsoleUI::handleInput`.  `chr c` is the `default` branch's raw character
code; `errKey` is `ERR` (no pending input). -/
inductive Key where
  | resizeKey
  | backspace
  | deleteKey
  | leftKey
  | rightKey
  | homeKey
  | endKey
  | upKey
  | downKey
  | enterKey
  | ppage
  | npage
  | chr (c : Nat)
  | errKey
deriving DecidableEq, Repr

/-- `ConsoleUI::handleInput`, one event per call.  `stdH`, `stdW` are the
`stdscr` dimensions read by `handleResize` when a resize event arrives. -/
def handleInput (alloc : AllocFn) (stdH stdW : Nat) (ui : ConsoleUI)
    (ch : Key) : ConsoleUI :=
  if ui.resizeStatus ≠ .Ready ∧ ch ≠ .resizeKey ∧ ch ≠ .errKey then ui
  else if ch = .errKey then ui
  else
    match ch with
    | .resizeKey => handleResize alloc stdH stdW ui
    | .backspace =>
        if ui.cursorPos > 0 then
          { ui with inputBuffer := strErase ui.inputBuffer (ui.cursorPos - 1),
                    cursorPos := ui.cursorPos - 1 }
        else ui
    | .deleteKey =>
        if ui.cursorPos < ui.inputBuffer.length then
          { ui with inputBuffer := strErase ui.inputBuffer ui.cursorPos }
        else ui
    | .leftKey => if ui.cursorPos > 0 then { ui with cursorPos := ui.cursorPos - 1 } else ui
    | .rightKey =>
        if ui.cursorPos < ui.inputBuffer.length then
          { ui with cursorPos := ui.cursorPos + 1 }
        else ui
    | .homeKey => { ui with cursorPos := 0 }
    | .endKey => { ui with cursorPos := ui.inputBuffer.length }
    | .upKey =>
        if ui.commandHistory ≠ [] then
          let idx : Int :=
            if ui.historyIndex = -1 then (ui.commandHistory.length : Int) - 1
            else if ui.historyIndex > 0 then ui.historyIndex - 1
            else ui.historyIndex
          let txt := ui.commandHistory.getD idx.toNat ""
          { ui with historyIndex := idx, inputBuffer := txt,
                    cursorPos := txt.length }
        else ui
    | .downKey =>
        if ui.historyIndex ≠ -1 then
          if ui.historyIndex < (ui.commandHistory.length : Int) - 1 then
            let idx := ui.historyIndex + 1
            let txt := ui.commandHistory.getD idx.toNat ""
            { ui with historyIndex := idx, inputBuffer := txt,
                      cursorPos := txt.length }
          else { ui with historyIndex := -1, inputBuffer := "", cursorPos := 0 }
        else ui
    | .enterKey =>
        if ui.resizeStatus = .Ready ∧ ui.inputBuffer ≠ "" then
          let cmd := ui.inputBuffer
          let u1 := addMsgState ui ("> " ++ cmd)
          let u2 := processCommand u1 cmd
          let u3 :=
            if cmd ≠ "exit" ∧
                (u2.commandHistory = [] ∨ u2.commandHistory.getLast? ≠ some cmd) then
              { u2 with commandHistory := u2.commandHistory ++ [cmd] }
            else u2
          { u3 with inputBuffer := "", cursorPos := 0, historyIndex := -1,
                    scrollOffset := 0 }
        else ui
    | .ppage =>
        match ui.outputWin with
        | some win =>
            if ui.resizeStatus = .Ready then
              { ui with scrollOffset :=
                  (scrollBack ui.outputBuffer.length win.height ui.scrollOffset
                    win.height) }
            else ui
        | none => ui
    | .npage =>
        match ui.outputWin with
        | some win =>
            if ui.resizeStatus = .Ready then
              { ui with scrollOffset := scrollForward ui.scrollOffset win.height }
            else ui
        | none => ui
    | .chr c =>
        if ui.resizeStatus = .Ready ∧ 32 ≤ c ∧ c ≤ 126 then
          { ui with inputBuffer := strInsert ui.inputBuffer ui.cursorPos (Char.ofNat c),
                    cursorPos := ui.cursorPos + 1 }
        else ui
    | .errKey => ui

/-- The state built by the `ConsoleUI(int, int)` constructor together with the
in-class initializers of the header: empty buffers, `m_scrollOffset = 0`,
`m_cursorPos = 0`, `m_historyIndex = -1`, `m_inputHeight = 3`,
`m_outputHeight = 20`, no windows, `m_isRunning = false`, and a
default-constructed `std::expected<void, ResizeError>` (which holds a value,
i.e. `Ready`). -/
def initialUI (h w : Nat) : ConsoleUI :=
  { termHeight := h, termWidth := w, outputHeight := 20, inputHeight := 3,
    outputBorderWin := none, outputWin := none,
    inputBorderWin := none, inputWin := none,
    outputBuffer := [], scrollOffset := 0,
    inputBuffer := "", cursorPos := 0,
    commandHistory := [], historyIndex := -1,
    isRunning := false, resizeStatus := .Ready, msgLog := [] }

/-- The layout-relevant tail of `ConsoleUI::create()`: construct the instance
for the current terminal size and store `setupWindows`'s result into
`m_resizeStatus`. -/
def createModel (alloc : AllocFn) (h w : Nat) : ConsoleUI :=
  let p := setupWindows alloc (initialUI h w) h w
  { p.1 with resizeStatus := p.2 }

/-- Allocation oracle under which every `newwin` call succeeds. -/
def allocAlways : AllocFn := fun _ _ _ _ => true

/-- Allocation oracle that succeeds exactly for the border windows (allocated
at column 0) and fails for the inner content windows (allocated at column 1). -/
def badAlloc : AllocFn := fun _ _ _ x => x == 0

/-- A freshly created UI on a 24×80 terminal where every allocation succeeds. -/
def mkReady : ConsoleUI := createModel allocAlways 24 80

/-- The key events produced by typing the printable characters of `s`. -/
def keysOf (s : String) : List Key := s.toList.map (fun c => Key.chr c.toNat)

/-- Feed a list of key events to `handleInput` on a 24×80 terminal. -/
def runKeys (u : ConsoleUI) (ks : List Key) : ConsoleUI :=
  ks.foldl (handleInput allocAlways 24 80) u

/-- `mkReady` with the line "look" typed (cursor at its end). -/
def lookUI : ConsoleUI := { mkReady with inputBuffer := "look", cursorPos := 4 }

/-- `mkReady` with command history ["a", "b", "c"] and not browsing. -/
def histUI : ConsoleUI := { mkReady with commandHistory := ["a", "b", "c"] }

/-- A ten-line buffer, as in the spec's `visibleSlice` examples. -/
def demoBuffer : List String :=
  ["l0", "l1", "l2", "l3", "l4", "l5", "l6", "l7", "l8", "l9"]

/-- C1: for every sequence of appends to the Output Scrollback, after each
append the buffer holds at most 1000 lines; the buffer is exactly the last
min(N, 1000) appended lines in order (eviction is strictly oldest-first), and
once more than 1000 lines have been appended the oldest retained line is the
(N−1000)-th appended line (0-indexed). -/
theorem scrollback_capacity_fifo (ms : List String) :
    (appendAll ms).length ≤ MAX_BUFFER_SIZE ∧
    appendAll ms = ms.drop (ms.length - MAX_BUFFER_SIZE) ∧
    (MAX_BUFFER_SIZE < ms.length →
      (appendAll ms).head? = ms[ms.length - MAX_BUFFER_SIZE]?) := by
  refine ⟨?_, appendAll_eq_drop ms, ?_⟩
  · rw [appendAll_eq_drop, List.length_drop]
    omega
  · intro _
    rw [appendAll_eq_drop, List.head?_drop]

/-- Witness for `scrollback_capacity_fifo`: 1005 appended lines exceed the
cap, and the oldest survivor is the line appended at index 5. -/
theorem scrollback_capacity_fifo_witness :
    MAX_BUFFER_SIZE < ((List.range 1005).map toString).length ∧
    (appendAll ((List.range 1005).map toString)).head? =
      ((List.range 1005).map toString)[((List.range 1005).map toString).length -
        MAX_BUFFER_SIZE]? := by
  have h : MAX_BUFFER_SIZE < ((List.range 1005).map toString).length := by
    simp [MAX_BUFFER_SIZE]
  exact ⟨h, (scrollback_capacity_fifo ((List.range 1005).map toString)).2.2 h⟩

lemma map_getD_range' (l : List String) :
    ∀ (n a : Nat), a + n ≤ l.length →
      (List.range' a n).map (fun i => l.getD i "") = (l.drop a).take n := by
  intro n
  induction n with
  | zero => intro a _; simp
  | succ n ih =>
      intro a h
      have ha : a < l.length := by omega
      rw [List.range'_succ, List.map_cons, List.getD_eq_getElem l "" ha,
        List.drop_eq_getElem_cons ha, List.take_succ_cons,
        ih (a + 1) (by omega)]

/-- C2: `visibleSlice` is a pure function of the buffer, the viewport height
and the scroll offset.  For a non-negative offset it returns exactly the
buffer elements with indices in
[max(0, size − height − offset), max(0, size − offset)) in original order,
never more than `winHeight` lines and never touching an out-of-range index;
on the ten-line demo buffer with viewport height 4 it returns the last four
lines at offset 0 and lines 3–6 at offset 3. -/
theorem visibleSlice_spec (buffer : List String) (winHeight : Nat) (s : Int)
    (hs : 0 ≤ s) :
    visibleSlice buffer winHeight s =
      (buffer.drop (firstLineIdx buffer.length winHeight s)).take
        (lastLineIdx buffer.length s - firstLineIdx buffer.length winHeight s) ∧
    (visibleSlice buffer winHeight s).length ≤ winHeight ∧
    lastLineIdx buffer.length s ≤ buffer.length ∧
    firstLineIdx buffer.length winHeight s ≤ lastLineIdx buffer.length s ∧
    lastLineIdx buffer.length s - firstLineIdx buffer.length winHeight s ≤
      winHeight ∧
    visibleSlice demoBuffer 4 0 = ["l6", "l7", "l8", "l9"] ∧
    visibleSlice demoBuffer 4 3 = ["l3", "l4", "l5", "l6"] := by
  have hf : firstLineIdx buffer.length winHeight s =
      (max 0 ((buffer.length : Int) - winHeight - s)).toNat := rfl
  have hl : lastLineIdx buffer.length s =
      (max 0 ((buffer.length : Int) - s)).toNat := rfl
  have hlast : lastLineIdx buffer.length s ≤ buffer.length := by
    rw [hl]; omega
  have hfl : firstLineIdx buffer.length winHeight s ≤
      lastLineIdx buffer.length s := by
    rw [hf, hl]; omega
  have hwid : lastLineIdx buffer.length s -
      firstLineIdx buffer.length winHeight s ≤ winHeight := by
    rw [hf, hl]; omega
  have hmain : visibleSlice buffer winHeight s =
      (buffer.drop (firstLineIdx buffer.length winHeight s)).take
        (lastLineIdx buffer.length s - firstLineIdx buffer.length winHeight s) := by
    have h1 : (List.range' (firstLineIdx buffer.length winHeight s)
        (lastLineIdx buffer.length s - firstLineIdx buffer.length winHeight s)).take
          winHeight =
        List.range' (firstLineIdx buffer.length winHeight s)
          (lastLineIdx buffer.length s - firstLineIdx buffer.length winHeight s) :=
      List.take_of_length_le (by rw [List.length_range']; exact hwid)
    simp only [visibleSlice]
    rw [h1]
    exact map_getD_range' buffer _ _ (by omega)
  refine ⟨hmain, ?_, hlast, hfl, hwid, by decide, by decide⟩
  rw [hmain, List.length_take]
  omega

/-- Witness for `visibleSlice_spec` at the demo buffer, viewport height 4,
offset 3. -/
theorem visibleSlice_spec_witness :
    (0 : Int) ≤ 3 ∧
    (visibleSlice demoBuffer 4 3 =
      (demoBuffer.drop (firstLineIdx demoBuffer.length 4 3)).take
        (lastLineIdx demoBuffer.length 3 - firstLineIdx demoBuffer.length 4 3) ∧
    (visibleSlice demoBuffer 4 3).length ≤ 4 ∧
    lastLineIdx demoBuffer.length 3 ≤ demoBuffer.length ∧
    firstLineIdx demoBuffer.length 4 3 ≤ lastLineIdx demoBuffer.length 3 ∧
    lastLineIdx demoBuffer.length 3 - firstLineIdx demoBuffer.length 4 3 ≤ 4 ∧
    visibleSlice demoBuffer 4 0 = ["l6", "l7", "l8", "l9"] ∧
    visibleSlice demoBuffer 4 3 = ["l3", "l4", "l5", "l6"]) :=
  ⟨by decide, visibleSlice_spec demoBuffer 4 3 (by decide)⟩

/-- Success of the four `newwin` calls of `setupWindows` (with the fixed
`m_inputHeight = 3` filled in), in source order with C-style short-circuit. -/
def allocsOk (alloc : AllocFn) (h w : Nat) : Bool :=
  alloc (h - 3) w 0 0 && (alloc 3 w (h - 3) 0 &&
    (alloc (if h - 3 > 2 then h - 3 - 2 else 0) (if w > 2 then w - 2 else 0) 1 1 &&
      alloc 1 (if w > 2 then w - 2 else 0) (h - 3 + 1) 1))

/-- C3: `setupWindows` returns TooSmall and releases all four surfaces
whenever the terminal is below the 10×40 minimum; otherwise the input region
keeps its fixed 3 rows, the output region gets the remaining `height − 3`
rows (so the two heights add back up to the terminal height), and the result
is Ready exactly when all four surface allocations succeed — any allocation
failure yields TooSmall as a fail-safe. -/
theorem setupWindows_spec (alloc : AllocFn) (ui : ConsoleUI) (h w : Nat)
    (hih : ui.inputHeight = 3) :
    ((h < minHeight ∨ w < minWidth) →
      (setupWindows alloc ui h w).2 = .TooSmall ∧
      (setupWindows alloc ui h w).1.outputBorderWin = none ∧
      (setupWindows alloc ui h w).1.outputWin = none ∧
      (setupWindows alloc ui h w).1.inputBorderWin = none ∧
      (setupWindows alloc ui h w).1.inputWin = none) ∧
    (minHeight ≤ h → minWidth ≤ w →
      (setupWindows alloc ui h w).1.inputHeight = 3 ∧
      (setupWindows alloc ui h w).1.outputHeight = h - 3 ∧
      (setupWindows alloc ui h w).1.outputHeight +
        (setupWindows alloc ui h w).1.inputHeight = h ∧
      ((setupWindows alloc ui h w).2 = .Ready ↔ allocsOk alloc h w = true)) := by
  constructor
  · intro hsmall
    simp [setupWindows, if_pos hsmall]
  · intro hh hw
    have hnot : ¬ (h < minHeight ∨ w < minWidth) := by omega
    have hadd : h - 3 + 3 = h := by
      have : minHeight = 10 := rfl
      omega
    simp only [setupWindows, hih, if_neg hnot, allocsOk]
    cases h1 : alloc (h - 3) w 0 0 <;>
      cases h2 : alloc 3 w (h - 3) 0 <;>
        cases h3 : alloc (if h - 3 > 2 then h - 3 - 2 else 0)
            (if w > 2 then w - 2 else 0) 1 1 <;>
          cases h4 : alloc 1 (if w > 2 then w - 2 else 0) (h - 3 + 1) 1 <;>
            simp_all

/-- Witness for `setupWindows_spec`: a 24×80 terminal with all allocations
succeeding gives Ready with output height 21 over the 3 input rows. -/
theorem setupWindows_spec_witness :
    (initialUI 24 80).inputHeight = 3 ∧
    (minHeight ≤ 24 → minWidth ≤ 80 →
      (setupWindows allocAlways (initialUI 24 80) 24 80).1.inputHeight = 3 ∧
      (setupWindows allocAlways (initialUI 24 80) 24 80).1.outputHeight = 24 - 3 ∧
      (setupWindows allocAlways (initialUI 24 80) 24 80).1.outputHeight +
        (setupWindows allocAlways (initialUI 24 80) 24 80).1.inputHeight = 24 ∧
      ((setupWindows allocAlways (initialUI 24 80) 24 80).2 = .Ready ↔
        allocsOk allocAlways 24 80 = true)) :=
  ⟨rfl, (setupWindows_spec allocAlways (initialUI 24 80) 24 80 rfl).2⟩

/-- C6 counterexample: with an allocation oracle that satisfies the two
border-window requests but fails the two inner content-window requests, a
24×80 `setupWindows` run ends with the border surfaces valid and the content
surfaces absent — a partially valid surface set, contradicting the claim that
after every layout operation the four surfaces are all valid or all absent. -/
theorem surfaces_partial_counterexample :
    ¬ ((((setupWindows badAlloc (initialUI 24 80) 24 80).1.outputBorderWin.isSome ∧
         (setupWindows badAlloc (initialUI 24 80) 24 80).1.outputWin.isSome ∧
         (setupWindows badAlloc (initialUI 24 80) 24 80).1.inputBorderWin.isSome ∧
         (setupWindows badAlloc (initialUI 24 80) 24 80).1.inputWin.isSome)) ∨
       ((setupWindows badAlloc (initialUI 24 80) 24 80).1.outputBorderWin = none ∧
        (setupWindows badAlloc (initialUI 24 80) 24 80).1.outputWin = none ∧
        (setupWindows badAlloc (initialUI 24 80) 24 80).1.inputBorderWin = none ∧
        (setupWindows badAlloc (initialUI 24 80) 24 80).1.inputWin = none)) := by
  decide

lemma setupWindows_surfaces_ext (alloc : AllocFn) (ui ui' : ConsoleUI)
    (h w : Nat) (hih : ui.inputHeight = ui'.inputHeight) :
    (setupWindows alloc ui' h w).1.outputBorderWin =
      (setupWindows alloc ui h w).1.outputBorderWin ∧
    (setupWindows alloc ui' h w).1.outputWin =
      (setupWindows alloc ui h w).1.outputWin ∧
    (setupWindows alloc ui' h w).1.inputBorderWin =
      (setupWindows alloc ui h w).1.inputBorderWin ∧
    (setupWindows alloc ui' h w).1.inputWin =
      (setupWindows alloc ui h w).1.inputWin ∧
    (setupWindows alloc ui' h w).2 = (setupWindows alloc ui h w).2 := by
  simp only [setupWindows, hih]
  by_cases hsmall : h < minHeight ∨ w < minWidth
  · simp [if_pos hsmall]
  · simp only [if_neg hsmall]
    cases h1 : alloc (h - ui'.inputHeight) w 0 0 <;>
      cases h2 : alloc ui'.inputHeight w (h - ui'.inputHeight) 0 <;>
        cases h3 : alloc (if h - ui'.inputHeight > 2 then h - ui'.inputHeight - 2 else 0)
            (if w > 2 then w - 2 else 0) 1 1 <;>
          cases h4 : alloc (if ui'.inputHeight > 2 then ui'.inputHeight - 2 else 0)
              (if w > 2 then w - 2 else 0) (h - ui'.inputHeight + 1) 1 <;>
            simp_all

/-- C6 (amended): after a layout operation the four surfaces are all valid
whenever the result is Ready, all absent whenever the terminal was below the
minimum, and all-or-none under any oracle in which allocation never fails;
moreover the surface set produced is independent of the previously held
surfaces — they are rebuilt as a unit from the new geometry alone.  (When an
allocation fails on a Ready-sized terminal, the operation reports TooSmall but
can leave the border surfaces valid with the content surfaces absent.) -/
theorem surfaces_all_or_none_amended (alloc : AllocFn) (ui : ConsoleUI)
    (h w : Nat) :
    ((setupWindows alloc ui h w).2 = .Ready →
      (setupWindows alloc ui h w).1.outputBorderWin.isSome ∧
      (setupWindows alloc ui h w).1.outputWin.isSome ∧
      (setupWindows alloc ui h w).1.inputBorderWin.isSome ∧
      (setupWindows alloc ui h w).1.inputWin.isSome) ∧
    ((h < minHeight ∨ w < minWidth) →
      (setupWindows alloc ui h w).1.outputBorderWin = none ∧
      (setupWindows alloc ui h w).1.outputWin = none ∧
      (setupWindows alloc ui h w).1.inputBorderWin = none ∧
      (setupWindows alloc ui h w).1.inputWin = none) ∧
    ((∀ a b c d, alloc a b c d = true) →
      ((setupWindows alloc ui h w).1.outputBorderWin.isSome ∧
       (setupWindows alloc ui h w).1.outputWin.isSome ∧
       (setupWindows alloc ui h w).1.inputBorderWin.isSome ∧
       (setupWindows alloc ui h w).1.inputWin.isSome) ∨
      ((setupWindows alloc ui h w).1.outputBorderWin = none ∧
       (setupWindows alloc ui h w).1.outputWin = none ∧
       (setupWindows alloc ui h w).1.inputBorderWin = none ∧
       (setupWindows alloc ui h w).1.inputWin = none)) ∧
    (∀ ui' : ConsoleUI, ui.inputHeight = ui'.inputHeight →
      (setupWindows alloc ui' h w).1.outputBorderWin =
        (setupWindows alloc ui h w).1.outputBorderWin ∧
      (setupWindows alloc ui' h w).1.outputWin =
        (setupWindows alloc ui h w).1.outputWin ∧
      (setupWindows alloc ui' h w).1.inputBorderWin =
        (setupWindows alloc ui h w).1.inputBorderWin ∧
      (setupWindows alloc ui' h w).1.inputWin =
        (setupWindows alloc ui h w).1.inputWin) := by
  refine ⟨?_, ?_, ?_, ?_⟩
  · intro hready
    by_cases hsmall : h < minHeight ∨ w < minWidth
    · simp [setupWindows, if_pos hsmall] at hready
    · simp only [setupWindows, if_neg hsmall] at hready ⊢
      cases h1 : alloc (h - ui.inputHeight) w 0 0 <;>
        cases h2 : alloc ui.inputHeight w (h - ui.inputHeight) 0 <;>
          cases h3 : alloc (if h - ui.inputHeight > 2 then h - ui.inputHeight - 2 else 0)
              (if w > 2 then w - 2 else 0) 1 1 <;>
            cases h4 : alloc (if ui.inputHeight > 2 then ui.inputHeight - 2 else 0)
                (if w > 2 then w - 2 else 0) (h - ui.inputHeight + 1) 1 <;>
              simp_all
  · intro hsmall
    simp [setupWindows, if_pos hsmall]
  · intro hall
    by_cases hsmall : h < minHeight ∨ w < minWidth
    · right; simp [setupWindows, if_pos hsmall]
    · left
      simp [setupWindows, if_neg hsmall, hall]
  · intro ui' hih
    have hext := setupWindows_surfaces_ext alloc ui ui' h w hih
    exact ⟨hext.1, hext.2.1, hext.2.2.1, hext.2.2.2.1⟩

/-- Witness for `surfaces_all_or_none_amended`: under the always-succeeding
oracle on a 24×80 terminal the Ready surface set is fully valid. -/
theorem surfaces_all_or_none_amended_witness :
    ((setupWindows allocAlways (initialUI 24 80) 24 80).2 = .Ready →
      (setupWindows allocAlways (initialUI 24 80) 24 80).1.outputBorderWin.isSome ∧
      (setupWindows allocAlways (initialUI 24 80) 24 80).1.outputWin.isSome ∧
      (setupWindows allocAlways (initialUI 24 80) 24 80).1.inputBorderWin.isSome ∧
      (setupWindows allocAlways (initialUI 24 80) 24 80).1.inputWin.isSome) ∧
    (setupWindows allocAlways (initialUI 24 80) 24 80).2 = .Ready :=
  ⟨(surfaces_all_or_none_amended allocAlways (initialUI 24 80) 24 80).1,
   by decide⟩

/-- C7 counterexample: the non-builtin command "look" produces only the local
message `Unknown: 'look'`; no delegation effect to an external command
processor occurs, contradicting the claim that every non-builtin command is
delegated to `execute(commandText)`. -/
theorem delegation_counterexample :
    CmdEffect.delegate "look" ∉ processCommandEffects "look" ∧
    processCommandEffects "look" =
      [.addMessage (unknownMessage "look")] := by
  exact ⟨by decide, by decide⟩

/-- C7 (amended): the built-ins are handled locally — "exit" stops the loop,
"clear" empties the scrollback, "help" prints the static usage text — and
every other submitted command is also handled locally, by appending the
message `Unknown: '<command>'` to the scrollback; no command is delegated to
an external command processor. -/
theorem builtins_local_no_delegation (command : String)
    (hx : command ≠ "exit") (hc : command ≠ "clear") (hh : command ≠ "help") :
    processCommandEffects command =
      [.addMessage (unknownMessage command)] ∧
    (∀ s, CmdEffect.delegate s ∉ processCommandEffects command) ∧
    processCommandEffects "exit" = [.stopEffect] ∧
    processCommandEffects "clear" = [.clearEffect] ∧
    processCommandEffects "help" = [.addMessage helpMessage] ∧
    (∀ c, ∀ s, CmdEffect.delegate s ∉ processCommandEffects c) := by
  have hgen : ∀ c, ∀ s, CmdEffect.delegate s ∉ processCommandEffects c := by
    intro c s
    unfold processCommandEffects
    split_ifs <;> simp
  refine ⟨?_, hgen command, by decide, by decide, by decide, hgen⟩
  unfold processCommandEffects
  rw [if_neg hx, if_neg hc, if_neg hh]

/-- Witness for `builtins_local_no_delegation` at the command "look". -/
theorem builtins_local_no_delegation_witness :
    processCommandEffects "look" =
      [.addMessage (unknownMessage "look")] ∧
    (∀ s, CmdEffect.delegate s ∉ processCommandEffects "look") ∧
    processCommandEffects "exit" = [.stopEffect] ∧
    processCommandEffects "clear" = [.clearEffect] ∧
    processCommandEffects "help" = [.addMessage helpMessage] ∧
    (∀ c, ∀ s, CmdEffect.delegate s ∉ processCommandEffects c) :=
  builtins_local_no_delegation "look" (by decide) (by decide) (by decide)

/-- C8: `scrollBack` raises the scroll offset by the requested amount but
clamps it to `bufferSize − viewportHeight` when that is positive and to 0
otherwise; `scrollForward` lowers it by the amount, floored at 0; starting
from a non-negative offset both results are non-negative, and a
`scrollBack` by 100 on a 10-line buffer with viewport height 4 lands on 6. -/
theorem scroll_clamp_spec (bufferSize winHeight : Nat) (s : Int) (amount : Nat)
    (hs : 0 ≤ s) :
    (0 < (bufferSize : Int) - winHeight →
      scrollBack bufferSize winHeight s amount =
        min (s + amount) ((bufferSize : Int) - winHeight)) ∧
    ((bufferSize : Int) - winHeight ≤ 0 →
      scrollBack bufferSize winHeight s amount = 0) ∧
    0 ≤ scrollBack bufferSize winHeight s amount ∧
    scrollForward s amount = max (s - amount) 0 ∧
    0 ≤ scrollForward s amount ∧
    scrollBack 10 4 0 100 = 6 := by
  unfold scrollBack scrollForward
  simp only [Int.min_def, Int.max_def]
  refine ⟨?_, ?_, ?_, ?_, ?_, by decide⟩ <;> split_ifs <;> omega

/-- Witness for `scroll_clamp_spec` at buffer size 10, viewport height 4,
offset 0, amount 100. -/
theorem scroll_clamp_spec_witness :
    (0 : Int) ≤ 0 ∧
    ((0 < (10 : Int) - 4 →
      scrollBack 10 4 0 100 = min ((0 : Int) + 100) ((10 : Int) - 4)) ∧
    ((10 : Int) - 4 ≤ 0 → scrollBack 10 4 0 100 = 0) ∧
    0 ≤ scrollBack 10 4 0 100 ∧
    scrollForward 0 100 = max ((0 : Int) - 100) 0 ∧
    0 ≤ scrollForward 0 100 ∧
    scrollBack 10 4 0 100 = 6) :=
  ⟨le_refl 0, scroll_clamp_spec 10 4 0 100 (le_refl 0)⟩

lemma processCommand_commandHistory (u : ConsoleUI) (c : String) :
    (processCommand u c).commandHistory = u.commandHistory := by
  unfold processCommand addMsgState
  split_ifs <;> rfl

lemma processCommand_msgLog (u : ConsoleUI) (c : String) :
    (processCommand u c).msgLog = u.msgLog ++ processCommandMessages c := by
  unfold processCommand addMsgState processCommandMessages
  split_ifs <;> simp

/-- C4: pressing enter on a Ready layout with a non-empty line submits it:
the line is appended to History unless it is the literal "exit" or equals the
immediately preceding History entry, and afterwards the text is empty, the
cursor is 0, `historyIndex` is −1 and the scroll offset is 0; typing "look"
twice (submitting each time) leaves History = ["look"], and submitting "exit"
appends nothing to History. -/
theorem enter_submit_spec (alloc : AllocFn) (sh sw : Nat) (ui : ConsoleUI)
    (hready : ui.resizeStatus = .Ready) (hne : ui.inputBuffer ≠ "") :
    (handleInput alloc sh sw ui .enterKey).commandHistory =
      (if ui.inputBuffer = "exit" ∨
          ui.commandHistory.getLast? = some ui.inputBuffer
       then ui.commandHistory else ui.commandHistory ++ [ui.inputBuffer]) ∧
    (handleInput alloc sh sw ui .enterKey).inputBuffer = "" ∧
    (handleInput alloc sh sw ui .enterKey).cursorPos = 0 ∧
    (handleInput alloc sh sw ui .enterKey).historyIndex = -1 ∧
    (handleInput alloc sh sw ui .enterKey).scrollOffset = 0 ∧
    (runKeys mkReady (keysOf "look" ++ [.enterKey] ++ keysOf "look" ++
      [.enterKey])).commandHistory = ["look"] ∧
    (runKeys mkReady (keysOf "exit" ++ [.enterKey])).commandHistory = [] := by
  refine ⟨?_, ?_, ?_, ?_, ?_, by decide, by decide⟩
  · simp [handleInput, hready, hne, processCommand_commandHistory, addMsgState]
    by_cases hA : ui.inputBuffer = "exit" <;>
      by_cases hB : ui.commandHistory.getLast? = some ui.inputBuffer <;>
        by_cases hE : ui.commandHistory = [] <;>
          simp_all [processCommand_commandHistory]
  · simp [handleInput, hready, hne]
  · simp [handleInput, hready, hne]
  · simp [handleInput, hready, hne]
  · simp [handleInput, hready, hne]

/-- Witness for `enter_submit_spec`: submitting "look" on a fresh Ready UI
pushes it onto the (empty) history and clears the line. -/
theorem enter_submit_spec_witness :
    lookUI.resizeStatus = .Ready ∧ lookUI.inputBuffer ≠ "" ∧
    (handleInput allocAlways 24 80 lookUI .enterKey).commandHistory = ["look"] ∧
    (handleInput allocAlways 24 80 lookUI .enterKey).inputBuffer = "" := by
  have h := enter_submit_spec allocAlways 24 80 lookUI (by decide) (by decide)
  refine ⟨by decide, by decide, ?_, h.2.1⟩
  rw [h.1]
  decide

/-- C5: History navigation.  Up while not browsing jumps to the newest entry;
up while browsing moves to the next older entry when one exists and stays on
the oldest otherwise, in every case loading the entry's text with the cursor
at its end (no index underflow).  Down while browsing moves to the next newer
entry and loads it, and at the newest entry leaves browsing mode and clears
the line.  With History = ["a","b","c"], up-up-up-down yields text "b", and a
fourth up keeps text "a" at index 0. -/
theorem history_navigation_spec (alloc : AllocFn) (sh sw : Nat)
    (ui : ConsoleUI) (hready : ui.resizeStatus = .Ready) :
    (ui.commandHistory ≠ [] → ui.historyIndex = -1 →
      (handleInput alloc sh sw ui .upKey).historyIndex =
        (ui.commandHistory.length : Int) - 1 ∧
      (handleInput alloc sh sw ui .upKey).inputBuffer =
        ui.commandHistory.getD (ui.commandHistory.length - 1) "" ∧
      (handleInput alloc sh sw ui .upKey).cursorPos =
        (ui.commandHistory.getD (ui.commandHistory.length - 1) "").length) ∧
    (ui.commandHistory ≠ [] → 0 < ui.historyIndex →
      (handleInput alloc sh sw ui .upKey).historyIndex = ui.historyIndex - 1 ∧
      (handleInput alloc sh sw ui .upKey).inputBuffer =
        ui.commandHistory.getD (ui.historyIndex - 1).toNat "" ∧
      (handleInput alloc sh sw ui .upKey).cursorPos =
        (ui.commandHistory.getD (ui.historyIndex - 1).toNat "").length) ∧
    (ui.commandHistory ≠ [] → ui.historyIndex = 0 →
      (handleInput alloc sh sw ui .upKey).historyIndex = 0 ∧
      (handleInput alloc sh sw ui .upKey).inputBuffer =
        ui.commandHistory.getD 0 "" ∧
      (handleInput alloc sh sw ui .upKey).cursorPos =
        (ui.commandHistory.getD 0 "").length) ∧
    (0 ≤ ui.historyIndex →
      ui.historyIndex < (ui.commandHistory.length : Int) - 1 →
      (handleInput alloc sh sw ui .downKey).historyIndex =
        ui.historyIndex + 1 ∧
      (handleInput alloc sh sw ui .downKey).inputBuffer =
        ui.commandHistory.getD (ui.historyIndex + 1).toNat "" ∧
      (handleInput alloc sh sw ui .downKey).cursorPos =
        (ui.commandHistory.getD (ui.historyIndex + 1).toNat "").length) ∧
    (0 ≤ ui.historyIndex →
      ¬ ui.historyIndex < (ui.commandHistory.length : Int) - 1 →
      (handleInput alloc sh sw ui .downKey).historyIndex = -1 ∧
      (handleInput alloc sh sw ui .downKey).inputBuffer = "" ∧
      (handleInput alloc sh sw ui .downKey).cursorPos = 0) ∧
    (runKeys histUI [.upKey, .upKey, .upKey, .downKey]).inputBuffer = "b" ∧
    (runKeys histUI [.upKey, .upKey, .upKey, .upKey]).inputBuffer = "a" ∧
    (runKeys histUI [.upKey, .upKey, .upKey, .upKey]).historyIndex = 0 := by
  refine ⟨?_, ?_, ?_, ?_, ?_, by decide, by decide, by decide⟩
  · intro hhist hidx
    have ht : ((ui.commandHistory.length : Int) - 1).toNat =
        ui.commandHistory.length - 1 := by omega
    simp [handleInput, hready, hhist, hidx, ht]
  · intro hhist hidx
    have hne1 : ui.historyIndex ≠ -1 := by omega
    simp [handleInput, hready, hhist, hne1, hidx]
  · intro hhist hidx
    simp [handleInput, hready, hhist, hidx]
  · intro hidx hlt
    have hne1 : ui.historyIndex ≠ -1 := by omega
    simp [handleInput, hready, hne1, hlt]
  · intro hidx hge
    have hne1 : ui.historyIndex ≠ -1 := by omega
    simp [handleInput, hready, hne1, hge]

/-- Witness for `history_navigation_spec` at History = ["a","b","c"]. -/
theorem history_navigation_spec_witness :
    histUI.resizeStatus = .Ready ∧
    (runKeys histUI [.upKey, .upKey, .upKey, .downKey]).inputBuffer = "b" ∧
    (runKeys histUI [.upKey, .upKey, .upKey, .upKey]).inputBuffer = "a" := by
  have h := history_navigation_spec allocAlways 24 80 histUI (by decide)
  exact ⟨by decide, h.2.2.2.2.2.1, h.2.2.2.2.2.2.1⟩

lemma setupWindows_preserves (alloc : AllocFn) (ui : ConsoleUI) (h w : Nat) :
    (setupWindows alloc ui h w).1.outputBuffer = ui.outputBuffer ∧
    (setupWindows alloc ui h w).1.msgLog = ui.msgLog ∧
    (setupWindows alloc ui h w).1.inputHeight = ui.inputHeight := by
  unfold setupWindows
  by_cases hsmall : h < minHeight ∨ w < minWidth
  · simp [hsmall]
  · simp only [if_neg hsmall]
    cases h1 : alloc (h - ui.inputHeight) w 0 0 <;>
      cases h2 : alloc ui.inputHeight w (h - ui.inputHeight) 0 <;>
        cases h3 : alloc (if h - ui.inputHeight > 2 then h - ui.inputHeight - 2 else 0)
            (if w > 2 then w - 2 else 0) 1 1 <;>
          cases h4 : alloc (if ui.inputHeight > 2 then ui.inputHeight - 2 else 0)
              (if w > 2 then w - 2 else 0) (h - ui.inputHeight + 1) 1 <;>
            simp_all

lemma handleResize_windows (alloc : AllocFn) (h w : Nat) (u : ConsoleUI) :
    (handleResize alloc h w u).outputBorderWin =
      (setupWindows alloc u h w).1.outputBorderWin ∧
    (handleResize alloc h w u).outputWin =
      (setupWindows alloc u h w).1.outputWin ∧
    (handleResize alloc h w u).inputBorderWin =
      (setupWindows alloc u h w).1.inputBorderWin ∧
    (handleResize alloc h w u).inputWin =
      (setupWindows alloc u h w).1.inputWin ∧
    (handleResize alloc h w u).resizeStatus = (setupWindows alloc u h w).2 ∧
    (handleResize alloc h w u).inputHeight = u.inputHeight := by
  unfold handleResize addMsgState
  by_cases hc : u.resizeStatus = LayoutStatus.TooSmall ∧
      (setupWindows alloc u h w).2 = LayoutStatus.Ready <;>
    simp [hc, (setupWindows_preserves alloc u h w).2.2]

/-- C9: a resize that takes the layout from TooSmall to Ready appends the
"resized" notice to the Scrollback exactly once (one `addOutputMessage`
call); a resize performed while already Ready appends nothing; re-running the
layout with identical dimensions reproduces the same surface set; and from a
5×20 (TooSmall) start, a resize to 24×80 yields Ready with output height 21
over the 3 input rows and exactly one notice in the buffer. -/
theorem resize_notice_spec (alloc : AllocFn) (h w : Nat) (ui : ConsoleUI) :
    (ui.resizeStatus = .TooSmall →
      (handleResize alloc h w ui).resizeStatus = .Ready →
      (handleResize alloc h w ui).outputBuffer =
        addOutputMsgList ui.outputBuffer resizedNotice ∧
      (handleResize alloc h w ui).msgLog = ui.msgLog ++ [resizedNotice]) ∧
    (ui.resizeStatus = .Ready →
      (handleResize alloc h w ui).outputBuffer = ui.outputBuffer ∧
      (handleResize alloc h w ui).msgLog = ui.msgLog) ∧
    ((handleResize alloc h w (handleResize alloc h w ui)).outputBorderWin =
      (handleResize alloc h w ui).outputBorderWin ∧
     (handleResize alloc h w (handleResize alloc h w ui)).outputWin =
      (handleResize alloc h w ui).outputWin ∧
     (handleResize alloc h w (handleResize alloc h w ui)).inputBorderWin =
      (handleResize alloc h w ui).inputBorderWin ∧
     (handleResize alloc h w (handleResize alloc h w ui)).inputWin =
      (handleResize alloc h w ui).inputWin) ∧
    ((createModel allocAlways 5 20).resizeStatus = .TooSmall ∧
     (handleResize allocAlways 24 80
       (createModel allocAlways 5 20)).resizeStatus = .Ready ∧
     (handleResize allocAlways 24 80
       (createModel allocAlways 5 20)).outputHeight = 21 ∧
     (handleResize allocAlways 24 80
       (createModel allocAlways 5 20)).inputHeight = 3 ∧
     (handleResize allocAlways 24 80
       (createModel allocAlways 5 20)).outputBuffer = [resizedNotice] ∧
     (handleResize allocAlways 24 80 (handleResize allocAlways 24 80
       (createModel allocAlways 5 20))).outputBuffer = [resizedNotice]) := by
  refine ⟨?_, ?_, ?_,
    by decide, by decide, by decide, by decide, by decide, by decide⟩
  · intro hts hrdy
    have hst : (setupWindows alloc ui h w).2 = .Ready := by
      rw [← (handleResize_windows alloc h w ui).2.2.2.2.1]
      exact hrdy
    simp [handleResize, hts, hst, addMsgState,
      (setupWindows_preserves alloc ui h w).1,
      (setupWindows_preserves alloc ui h w).2.1]
  · intro hrdy
    simp [handleResize, hrdy,
      (setupWindows_preserves alloc ui h w).1,
      (setupWindows_preserves alloc ui h w).2.1]
  · have hr := handleResize_windows alloc h w ui
    have hr2 := handleResize_windows alloc h w (handleResize alloc h w ui)
    have hext := setupWindows_surfaces_ext alloc ui (handleResize alloc h w ui)
      h w (hr.2.2.2.2.2).symm
    exact ⟨hr2.1.trans (hext.1.trans hr.1.symm),
      hr2.2.1.trans (hext.2.1.trans hr.2.1.symm),
      hr2.2.2.1.trans (hext.2.2.1.trans hr.2.2.1.symm),
      hr2.2.2.2.1.trans (hext.2.2.2.1.trans hr.2.2.2.1.symm)⟩

/-- Witness for `resize_notice_spec`: the 5×20 → 24×80 transition of the
concrete-example conjunct, extracted through the theorem. -/
theorem resize_notice_spec_witness :
    (createModel allocAlways 5 20).resizeStatus = .TooSmall ∧
    (handleResize allocAlways 24 80
      (createModel allocAlways 5 20)).outputBuffer = [resizedNotice] :=
  ⟨(resize_notice_spec allocAlways 24 80 (createModel allocAlways 5 20)).2.2.2.1,
   (resize_notice_spec allocAlways 24 80
     (createModel allocAlways 5 20)).2.2.2.2.2.2.2.1⟩

/-- C10: submitting a non-empty line `s` with enter while Ready first appends
the echo line "> s" to the Scrollback and only then the messages produced by
processing the command: in the ghost append log the echo immediately precedes
the command's own output. -/
theorem echo_before_processing (alloc : AllocFn) (sh sw : Nat)
    (ui : ConsoleUI) (hready : ui.resizeStatus = .Ready)
    (hne : ui.inputBuffer ≠ "") :
    (handleInput alloc sh sw ui .enterKey).msgLog =
      ui.msgLog ++ ("> " ++ ui.inputBuffer) ::
        processCommandMessages ui.inputBuffer := by
  simp [handleInput, hready, hne]
  split_ifs <;> simp [processCommand_msgLog, addMsgState]

/-- Witness for `echo_before_processing`: submitting "look" logs the echo
"> look" followed by the unknown-command message. -/
theorem echo_before_processing_witness :
    lookUI.resizeStatus = .Ready ∧ lookUI.inputBuffer ≠ "" ∧
    (handleInput allocAlways 24 80 lookUI .enterKey).msgLog =
      lookUI.msgLog ++ ("> " ++ lookUI.inputBuffer) ::
        processCommandMessages lookUI.inputBuffer :=
  ⟨by decide, by decide,
   echo_before_processing allocAlways 24 80 lookUI (by decide) (by decide)⟩

end Wyrmline
